import Mathlib

/-!
Shallow embedding of the branch-store module (`src/filial.py`).

The module persists a list of branch records in one JSON file and offers
five operations: `add_filial`, `del_filial`, `get_filial`, `get_filiais`
and `get_filial_proxima`.  Each Python operation opens the fixed file,
transforms the decoded list in memory and, for mutations, rewrites the
file; exceptions are converted to integer status codes.

The embedding passes the ambient file state explicitly.  `FileContent`
distinguishes the three cases the Python exception handlers distinguish:
the file is absent (`FileNotFoundError`), its content is not valid JSON
(`json.JSONDecodeError`), or it decodes to a list of records.  The flag
`writeFails` models `json.dump` raising, which the generic
`except Exception` arm turns into the unknown-error status.
-/

/-- A branch record as stored in the JSON array: keys `id`, `nome`, `bairro`. -/
structure Filial where
  id : Int
  nome : String
  bairro : String
deriving Repr, DecidableEq

/-- A branch record with the `id` key dropped, as returned by the read
operations (`{'nome': ..., 'bairro': ...}`). -/
structure FilialInfo where
  nome : String
  bairro : String
deriving Repr, DecidableEq

/-- Content of the backing JSON file. -/
inductive FileContent where
  | missing : FileContent
  | invalid : FileContent
  | valid : List Filial → FileContent
deriving Repr, DecidableEq

/-- Ambient state an operation runs against: the file content plus whether
a rewrite of the file would raise. -/
structure FileState where
  content : FileContent
  writeFails : Bool
deriving Repr, DecidableEq

/-- Status code 0: operation succeeded. -/
def OPERACAO_REALIZADA_COM_SUCESSO : Int := 0

/-- Status code 30: backing file not found. -/
def ARQUIVO_NAO_ENCONTRADO : Int := 30

/-- Status code 31: backing file content invalid. -/
def ARQUIVO_EM_FORMATO_INVALIDO : Int := 31

/-- Status code 32: write error (defined in the source, reserved). -/
def ERRO_NA_ESCRITA_DO_ARQUIVO : Int := 32

/-- Status code 33: branch not found. -/
def FILIAL_NAO_ENCONTRADA : Int := 33

/-- Status code 34: unknown error (catch-all). -/
def ERRO_DESCONHECIDO : Int := 34

/-- Status code 35: neighborhood not found. -/
def BAIRRO_NAO_ENCONTRADO : Int := 35

/-- Embedding of `add_filial(id, nome, bairro)`: load the list; if any
record has the given id return the unknown-error code; otherwise append
`{id, nome, bairro}` and rewrite the file.  A raising rewrite is caught by
the generic handler and becomes the unknown-error code. -/
def add_filial (id : Int) (nome bairro : String) (fs : FileState) : Int × FileState :=
  match fs.content with
  | FileContent.missing => (ARQUIVO_NAO_ENCONTRADO, fs)
  | FileContent.invalid => (ARQUIVO_EM_FORMATO_INVALIDO, fs)
  | FileContent.valid filiais =>
    if filiais.any (fun f => f.id == id) then
      (ERRO_DESCONHECIDO, fs)
    else if fs.writeFails then
      (ERRO_DESCONHECIDO, fs)
    else
      (OPERACAO_REALIZADA_COM_SUCESSO,
        ⟨FileContent.valid (filiais ++ [⟨id, nome, bairro⟩]), fs.writeFails⟩)

/-- The loop of `del_filial`: remove the first record whose id matches,
leaving the rest of the list in order. -/
def removeFirst (id_filial : Int) : List Filial → List Filial
  | [] => []
  | f :: rest => if f.id == id_filial then rest else f :: removeFirst id_filial rest

/-- Embedding of `del_filial(id_filial)`: load the list; if no record has
the given id return the unknown-error code; otherwise remove the first
match and rewrite the file, a raising rewrite again becoming the
unknown-error code. -/
def del_filial (id_filial : Int) (fs : FileState) : Int × FileState :=
  match fs.content with
  | FileContent.missing => (ARQUIVO_NAO_ENCONTRADO, fs)
  | FileContent.invalid => (ARQUIVO_EM_FORMATO_INVALIDO, fs)
  | FileContent.valid filiais =>
    if filiais.any (fun f => f.id == id_filial) then
      if fs.writeFails then
        (ERRO_DESCONHECIDO, fs)
      else
        (OPERACAO_REALIZADA_COM_SUCESSO,
          ⟨FileContent.valid (removeFirst id_filial filiais), fs.writeFails⟩)
    else
      (ERRO_DESCONHECIDO, fs)

/-- Embedding of `get_filial(id)`: load the list and return the first
record with the given id, reduced to `{nome, bairro}`, or the
branch-not-found code. -/
def get_filial (id : Int) (fs : FileState) : Int × Option FilialInfo :=
  match fs.content with
  | FileContent.missing => (ARQUIVO_NAO_ENCONTRADO, none)
  | FileContent.invalid => (ARQUIVO_EM_FORMATO_INVALIDO, none)
  | FileContent.valid filiais =>
    match filiais.find? (fun f => f.id == id) with
    | some f => (OPERACAO_REALIZADA_COM_SUCESSO, some ⟨f.nome, f.bairro⟩)
    | none => (FILIAL_NAO_ENCONTRADA, none)

/-- Embedding of `get_filiais()`: load the list and return every record
reduced to `{nome, bairro}`, in storage order. -/
def get_filiais (fs : FileState) : Int × List FilialInfo :=
  match fs.content with
  | FileContent.missing => (ARQUIVO_NAO_ENCONTRADO, [])
  | FileContent.invalid => (ARQUIVO_EM_FORMATO_INVALIDO, [])
  | FileContent.valid filiais =>
    (OPERACAO_REALIZADA_COM_SUCESSO, filiais.map (fun f => ⟨f.nome, f.bairro⟩))

/-- The hardcoded neighborhood-to-branch association table, in source order. -/
def filial_mais_proxima : List (String × Int) :=
  [("Tijuca", 1), ("Ipanema", 2), ("Andarai", 1), ("Leblon", 2),
   ("Grajau", 1), ("Gavea", 2), ("Vila Isabel", 1)]

/-- Embedding of `get_filial_proxima(bairro)`: scan the static table for
the first exact match on the neighborhood name.  The Python body never
opens the backing file; the ambient state is taken as an argument, like
every operation, and ignored. -/
def get_filial_proxima (bairro : String) (_fs : FileState) : Int × Option Int :=
  match filial_mais_proxima.find? (fun t => t.1 == bairro) with
  | some t => (OPERACAO_REALIZADA_COM_SUCESSO, some t.2)
  | none => (BAIRRO_NAO_ENCONTRADO, none)

/-- Helper: `find?` skips over a prefix in which no element satisfies the
predicate. -/
theorem find?_append_of_none {α : Type} (p : α → Bool) (l₁ l₂ : List α)
    (h : l₁.find? p = none) : (l₁ ++ l₂).find? p = l₂.find? p := by
  rw [List.find?_append, h, Option.none_or]

/-- Helper: after `removeFirst id l` on a list with pairwise-distinct ids,
no remaining record carries the removed id. -/
theorem removeFirst_no_id (id : Int) (l : List Filial)
    (hnd : (l.map Filial.id).Nodup) :
    ∀ f ∈ removeFirst id l, f.id ≠ id := by
  induction l with
  | nil => intro f hf; cases hf
  | cons a t ih =>
    rw [List.map_cons, List.nodup_cons] at hnd
    intro f hf
    rw [removeFirst] at hf
    by_cases hp : (a.id == id) = true
    · rw [if_pos hp] at hf
      have haid : a.id = id := beq_iff_eq.mp hp
      intro hfid
      exact hnd.1 (haid ▸ hfid ▸ List.mem_map_of_mem Filial.id hf)
    · rw [if_neg hp] at hf
      cases hf with
      | head => exact fun hfid => hp (beq_iff_eq.mpr hfid)
      | tail _ hft => exact ih hnd.2 f hft

/-- C1: for every id absent from the stored sequence, with the file present,
valid and writable, `add_filial id n b` returns the success status and a
subsequent `get_filial id` on the resulting state returns success together
with the record `{nome := n, bairro := b}`. -/
theorem create_then_get (id : Int) (n b : String) (l : List Filial)
    (h : ∀ f ∈ l, f.id ≠ id) :
    (add_filial id n b ⟨FileContent.valid l, false⟩).1 = OPERACAO_REALIZADA_COM_SUCESSO ∧
    get_filial id (add_filial id n b ⟨FileContent.valid l, false⟩).2 =
      (OPERACAO_REALIZADA_COM_SUCESSO, some ⟨n, b⟩) := by
  have hany : l.any (fun f => f.id == id) = false := by
    rw [List.any_eq_false]
    intro f hf
    exact fun hb => h f hf (beq_iff_eq.mp hb)
  have hnone : l.find? (fun f => f.id == id) = none := by
    rw [List.find?_eq_none]
    intro f hf
    exact fun hb => h f hf (beq_iff_eq.mp hb)
  refine ⟨by simp [add_filial, hany], ?_⟩
  simp only [add_filial, hany, Bool.false_eq_true, if_false, if_neg]
  simp [get_filial, find?_append_of_none _ l _ hnone]

/-- Witness for C1 at a concrete input. -/
theorem create_then_get_witness :
    (add_filial 7 "Centro" "Tijuca" ⟨FileContent.valid [⟨1, "A", "B"⟩], false⟩).1 =
      OPERACAO_REALIZADA_COM_SUCESSO ∧
    get_filial 7 (add_filial 7 "Centro" "Tijuca"
        ⟨FileContent.valid [⟨1, "A", "B"⟩], false⟩).2 =
      (OPERACAO_REALIZADA_COM_SUCESSO, some ⟨"Centro", "Tijuca"⟩) :=
  create_then_get 7 "Centro" "Tijuca" [⟨1, "A", "B"⟩] (by decide)

/-- C2: when some stored record already carries the given id, `add_filial`
returns the generic unknown-error status (34) and the state is returned
unchanged: nothing is appended and the file is not rewritten. -/
theorem add_duplicate_unchanged (id : Int) (n b : String) (l : List Filial)
    (w : Bool) (f : Filial) (hf : f ∈ l) (hid : f.id = id) :
    add_filial id n b ⟨FileContent.valid l, w⟩ =
      (ERRO_DESCONHECIDO, ⟨FileContent.valid l, w⟩) := by
  have hany : l.any (fun g => g.id == id) = true :=
    List.any_eq_true.mpr ⟨f, hf, beq_iff_eq.mpr hid⟩
  simp [add_filial, hany]

/-- Witness for C2 at a concrete input. -/
theorem add_duplicate_unchanged_witness :
    add_filial 1 "X" "Y" ⟨FileContent.valid [⟨1, "A", "B"⟩], false⟩ =
      (ERRO_DESCONHECIDO, ⟨FileContent.valid [⟨1, "A", "B"⟩], false⟩) :=
  add_duplicate_unchanged 1 "X" "Y" [⟨1, "A", "B"⟩] false ⟨1, "A", "B"⟩
    (by decide) (by decide)

/-- C3: when no stored record carries the given id, `del_filial` returns
the generic unknown-error status (34) and the state is returned unchanged:
the file is not rewritten. -/
theorem del_missing_id_unchanged (id : Int) (l : List Filial) (w : Bool)
    (h : ∀ f ∈ l, f.id ≠ id) :
    del_filial id ⟨FileContent.valid l, w⟩ =
      (ERRO_DESCONHECIDO, ⟨FileContent.valid l, w⟩) := by
  have hany : l.any (fun f => f.id == id) = false := by
    rw [List.any_eq_false]
    intro f hf
    exact fun hb => h f hf (beq_iff_eq.mp hb)
  simp [del_filial, hany]

/-- Witness for C3 at a concrete input. -/
theorem del_missing_id_unchanged_witness :
    del_filial 2 ⟨FileContent.valid [⟨1, "A", "B"⟩], false⟩ =
      (ERRO_DESCONHECIDO, ⟨FileContent.valid [⟨1, "A", "B"⟩], false⟩) :=
  del_missing_id_unchanged 2 [⟨1, "A", "B"⟩] false (by decide)

/-- C4: if the stored ids are pairwise distinct and `del_filial id`
succeeds, then `get_filial id` on the resulting state returns the
branch-not-found status (33) with no record. -/
theorem delete_then_get (id : Int) (l : List Filial) (w : Bool)
    (hnd : (l.map Filial.id).Nodup)
    (hs : (del_filial id ⟨FileContent.valid l, w⟩).1 = OPERACAO_REALIZADA_COM_SUCESSO) :
    get_filial id (del_filial id ⟨FileContent.valid l, w⟩).2 =
      (FILIAL_NAO_ENCONTRADA, none) := by
  by_cases hany : l.any (fun f => f.id == id) = true
  · cases w with
    | true => simp [del_filial, hany, ERRO_DESCONHECIDO, OPERACAO_REALIZADA_COM_SUCESSO] at hs
    | false =>
      have hnone : (removeFirst id l).find? (fun f => f.id == id) = none := by
        rw [List.find?_eq_none]
        intro f hf
        exact fun hb => removeFirst_no_id id l hnd f hf (beq_iff_eq.mp hb)
      simp [del_filial, hany, get_filial, hnone]
  · simp [del_filial, hany, ERRO_DESCONHECIDO, OPERACAO_REALIZADA_COM_SUCESSO] at hs

/-- Witness for C4 at a concrete input. -/
theorem delete_then_get_witness :
    get_filial 1 (del_filial 1 ⟨FileContent.valid [⟨1, "A", "B"⟩, ⟨2, "C", "D"⟩], false⟩).2 =
      (FILIAL_NAO_ENCONTRADA, none) :=
  delete_then_get 1 [⟨1, "A", "B"⟩, ⟨2, "C", "D"⟩] false (by decide) (by decide)

/-- C5: `get_filial_proxima` matches its argument exactly against the
fixed table, returning success together with the associated branch id for
each of the seven entries, and the neighborhood-not-found status (35) with
no id for every other string, regardless of the file state. -/
theorem nearest_branch_table (fs : FileState) (b : String)
    (h1 : b ≠ "Tijuca") (h2 : b ≠ "Ipanema") (h3 : b ≠ "Andarai")
    (h4 : b ≠ "Leblon") (h5 : b ≠ "Grajau") (h6 : b ≠ "Gavea")
    (h7 : b ≠ "Vila Isabel") :
    get_filial_proxima b fs = (BAIRRO_NAO_ENCONTRADO, none) ∧
    get_filial_proxima "Tijuca" fs = (OPERACAO_REALIZADA_COM_SUCESSO, some 1) ∧
    get_filial_proxima "Ipanema" fs = (OPERACAO_REALIZADA_COM_SUCESSO, some 2) ∧
    get_filial_proxima "Andarai" fs = (OPERACAO_REALIZADA_COM_SUCESSO, some 1) ∧
    get_filial_proxima "Leblon" fs = (OPERACAO_REALIZADA_COM_SUCESSO, some 2) ∧
    get_filial_proxima "Grajau" fs = (OPERACAO_REALIZADA_COM_SUCESSO, some 1) ∧
    get_filial_proxima "Gavea" fs = (OPERACAO_REALIZADA_COM_SUCESSO, some 2) ∧
    get_filial_proxima "Vila Isabel" fs = (OPERACAO_REALIZADA_COM_SUCESSO, some 1) := by
  refine ⟨?_, rfl, rfl, rfl, rfl, rfl, rfl, rfl⟩
  have e1 : ("Tijuca" == b) = false := beq_eq_false_iff_ne.mpr (Ne.symm h1)
  have e2 : ("Ipanema" == b) = false := beq_eq_false_iff_ne.mpr (Ne.symm h2)
  have e3 : ("Andarai" == b) = false := beq_eq_false_iff_ne.mpr (Ne.symm h3)
  have e4 : ("Leblon" == b) = false := beq_eq_false_iff_ne.mpr (Ne.symm h4)
  have e5 : ("Grajau" == b) = false := beq_eq_false_iff_ne.mpr (Ne.symm h5)
  have e6 : ("Gavea" == b) = false := beq_eq_false_iff_ne.mpr (Ne.symm h6)
  have e7 : ("Vila Isabel" == b) = false := beq_eq_false_iff_ne.mpr (Ne.symm h7)
  simp [get_filial_proxima, filial_mais_proxima, e1, e2, e3, e4, e5, e6, e7]

/-- Witness for C5 at the concrete input "Copacabana". -/
theorem nearest_branch_table_witness :
    get_filial_proxima "Copacabana" ⟨FileContent.missing, false⟩ =
      (BAIRRO_NAO_ENCONTRADO, none) ∧
    get_filial_proxima "Tijuca" ⟨FileContent.missing, false⟩ =
      (OPERACAO_REALIZADA_COM_SUCESSO, some 1) ∧
    get_filial_proxima "Ipanema" ⟨FileContent.missing, false⟩ =
      (OPERACAO_REALIZADA_COM_SUCESSO, some 2) ∧
    get_filial_proxima "Andarai" ⟨FileContent.missing, false⟩ =
      (OPERACAO_REALIZADA_COM_SUCESSO, some 1) ∧
    get_filial_proxima "Leblon" ⟨FileContent.missing, false⟩ =
      (OPERACAO_REALIZADA_COM_SUCESSO, some 2) ∧
    get_filial_proxima "Grajau" ⟨FileContent.missing, false⟩ =
      (OPERACAO_REALIZADA_COM_SUCESSO, some 1) ∧
    get_filial_proxima "Gavea" ⟨FileContent.missing, false⟩ =
      (OPERACAO_REALIZADA_COM_SUCESSO, some 2) ∧
    get_filial_proxima "Vila Isabel" ⟨FileContent.missing, false⟩ =
      (OPERACAO_REALIZADA_COM_SUCESSO, some 1) :=
  nearest_branch_table ⟨FileContent.missing, false⟩ "Copacabana"
    (by decide) (by decide) (by decide) (by decide) (by decide) (by decide) (by decide)

/-- C6: on a valid file, `get_filiais` returns the success status together
with exactly the stored records in storage order, each reduced to
`{nome, bairro}`. -/
theorem list_all_spec (l : List Filial) (w : Bool) :
    get_filiais ⟨FileContent.valid l, w⟩ =
      (OPERACAO_REALIZADA_COM_SUCESSO, l.map (fun f => ⟨f.nome, f.bairro⟩)) := rfl

/-- C7: uniformly for `add_filial`, `del_filial`, `get_filial` and
`get_filiais`, a missing file yields the file-not-found status (30) and an
invalid file yields the invalid-format status (31). -/
theorem file_errors_uniform (id : Int) (n b : String) (w : Bool) :
    (add_filial id n b ⟨FileContent.missing, w⟩).1 = ARQUIVO_NAO_ENCONTRADO ∧
    (add_filial id n b ⟨FileContent.invalid, w⟩).1 = ARQUIVO_EM_FORMATO_INVALIDO ∧
    (del_filial id ⟨FileContent.missing, w⟩).1 = ARQUIVO_NAO_ENCONTRADO ∧
    (del_filial id ⟨FileContent.invalid, w⟩).1 = ARQUIVO_EM_FORMATO_INVALIDO ∧
    (get_filial id ⟨FileContent.missing, w⟩).1 = ARQUIVO_NAO_ENCONTRADO ∧
    (get_filial id ⟨FileContent.invalid, w⟩).1 = ARQUIVO_EM_FORMATO_INVALIDO ∧
    (get_filiais ⟨FileContent.missing, w⟩).1 = ARQUIVO_NAO_ENCONTRADO ∧
    (get_filiais ⟨FileContent.invalid, w⟩).1 = ARQUIVO_EM_FORMATO_INVALIDO :=
  ⟨rfl, rfl, rfl, rfl, rfl, rfl, rfl, rfl⟩

/-- C8 counterexample: `get_filial_proxima`, the fifth operation, does not
return the file-not-found status against a missing file; it answers from
the static table instead. -/
theorem nearest_branch_not_file_error :
    get_filial_proxima "Ipanema" ⟨FileContent.missing, false⟩ =
      (OPERACAO_REALIZADA_COM_SUCESSO, some 2) ∧
    OPERACAO_REALIZADA_COM_SUCESSO ≠ ARQUIVO_NAO_ENCONTRADO :=
  ⟨rfl, by decide⟩

/-- C8 amended: the four file-backed operations return the file-not-found
status (30) on a missing file and the invalid-format status (31) on a
malformed file; `get_filial_proxima` is unaffected by the file state,
returning the same result under every file state. -/
theorem file_errors_amended (id : Int) (n b bx : String) (w : Bool) (fs : FileState) :
    (add_filial id n b ⟨FileContent.missing, w⟩).1 = ARQUIVO_NAO_ENCONTRADO ∧
    (add_filial id n b ⟨FileContent.invalid, w⟩).1 = ARQUIVO_EM_FORMATO_INVALIDO ∧
    (del_filial id ⟨FileContent.missing, w⟩).1 = ARQUIVO_NAO_ENCONTRADO ∧
    (del_filial id ⟨FileContent.invalid, w⟩).1 = ARQUIVO_EM_FORMATO_INVALIDO ∧
    (get_filial id ⟨FileContent.missing, w⟩).1 = ARQUIVO_NAO_ENCONTRADO ∧
    (get_filial id ⟨FileContent.invalid, w⟩).1 = ARQUIVO_EM_FORMATO_INVALIDO ∧
    (get_filiais ⟨FileContent.missing, w⟩).1 = ARQUIVO_NAO_ENCONTRADO ∧
    (get_filiais ⟨FileContent.invalid, w⟩).1 = ARQUIVO_EM_FORMATO_INVALIDO ∧
    get_filial_proxima bx fs = get_filial_proxima bx ⟨FileContent.valid [], false⟩ :=
  ⟨rfl, rfl, rfl, rfl, rfl, rfl, rfl, rfl, rfl⟩

/-- C9: no operation ever returns the reserved write-error status (32),
under any file state and input; and on a valid file whose rewrite raises,
both mutating operations surface the failure as the unknown-error
status (34) instead. -/
theorem write_error_never_returned (fs : FileState) (id : Int)
    (n b bx : String) (l : List Filial) :
    (add_filial id n b fs).1 ≠ ERRO_NA_ESCRITA_DO_ARQUIVO ∧
    (del_filial id fs).1 ≠ ERRO_NA_ESCRITA_DO_ARQUIVO ∧
    (get_filial id fs).1 ≠ ERRO_NA_ESCRITA_DO_ARQUIVO ∧
    (get_filiais fs).1 ≠ ERRO_NA_ESCRITA_DO_ARQUIVO ∧
    (get_filial_proxima bx fs).1 ≠ ERRO_NA_ESCRITA_DO_ARQUIVO ∧
    (add_filial id n b ⟨FileContent.valid l, true⟩).1 = ERRO_DESCONHECIDO ∧
    (del_filial id ⟨FileContent.valid l, true⟩).1 = ERRO_DESCONHECIDO := by
  obtain ⟨c, w⟩ := fs
  refine ⟨?_, ?_, ?_, ?_, ?_, ?_, ?_⟩
  · cases c with
    | missing => simp [add_filial, ARQUIVO_NAO_ENCONTRADO, ERRO_NA_ESCRITA_DO_ARQUIVO]
    | invalid => simp [add_filial, ARQUIVO_EM_FORMATO_INVALIDO, ERRO_NA_ESCRITA_DO_ARQUIVO]
    | valid l2 =>
      simp only [add_filial]
      split
      · simp [ERRO_DESCONHECIDO, ERRO_NA_ESCRITA_DO_ARQUIVO]
      · split <;>
          simp [ERRO_DESCONHECIDO, OPERACAO_REALIZADA_COM_SUCESSO, ERRO_NA_ESCRITA_DO_ARQUIVO]
  · cases c with
    | missing => simp [del_filial, ARQUIVO_NAO_ENCONTRADO, ERRO_NA_ESCRITA_DO_ARQUIVO]
    | invalid => simp [del_filial, ARQUIVO_EM_FORMATO_INVALIDO, ERRO_NA_ESCRITA_DO_ARQUIVO]
    | valid l2 =>
      simp only [del_filial]
      split
      · split <;>
          simp [ERRO_DESCONHECIDO, OPERACAO_REALIZADA_COM_SUCESSO, ERRO_NA_ESCRITA_DO_ARQUIVO]
      · simp [ERRO_DESCONHECIDO, ERRO_NA_ESCRITA_DO_ARQUIVO]
  · cases c with
    | missing => simp [get_filial, ARQUIVO_NAO_ENCONTRADO, ERRO_NA_ESCRITA_DO_ARQUIVO]
    | invalid => simp [get_filial, ARQUIVO_EM_FORMATO_INVALIDO, ERRO_NA_ESCRITA_DO_ARQUIVO]
    | valid l2 =>
      simp only [get_filial]
      split <;>
        simp [OPERACAO_REALIZADA_COM_SUCESSO, FILIAL_NAO_ENCONTRADA, ERRO_NA_ESCRITA_DO_ARQUIVO]
  · cases c with
    | missing => simp [get_filiais, ARQUIVO_NAO_ENCONTRADO, ERRO_NA_ESCRITA_DO_ARQUIVO]
    | invalid => simp [get_filiais, ARQUIVO_EM_FORMATO_INVALIDO, ERRO_NA_ESCRITA_DO_ARQUIVO]
    | valid l2 =>
      simp [get_filiais, OPERACAO_REALIZADA_COM_SUCESSO, ERRO_NA_ESCRITA_DO_ARQUIVO]
  · simp only [get_filial_proxima]
    split <;>
      simp [OPERACAO_REALIZADA_COM_SUCESSO, BAIRRO_NAO_ENCONTRADO, ERRO_NA_ESCRITA_DO_ARQUIVO]
  · simp only [add_filial]
    split
    · rfl
    · rfl
  · simp only [del_filial]
    split
    · rfl
    · rfl

/-- C10: `get_filial_proxima` is a pure function of its neighborhood
argument alone: it never consults the backing file, so two invocations
with the same argument agree under any two file states. -/
theorem nearest_branch_pure (bairro : String) (fs₁ fs₂ : FileState) :
    get_filial_proxima bairro fs₁ = get_filial_proxima bairro fs₂ := rfl
